import Mathlib

/-!
Shallow embedding of the langchain-nextjs-template repository:
the chat route handler (`POST`, `fetchGitHubTools`), the message adapters
(`convertVercelMessageToLangChainMessage`, `convertLangChainMessageToVercelMessage`)
and the tool-response renderer (`IntermediateStep`).

JavaScript runtime values are modelled by `JsValue`; the JSON builtins
(`JSON.parse`, `JSON.stringify(v, null, 2)`), string coercion (`ToString`),
`encodeURIComponent` and `TextEncoder.encode` are embedded as executable Lean
functions following the ECMAScript semantics on the scalar-Unicode, exact-decimal
fragment these claims live in (no NaN/Infinity/lone surrogates, which cannot
arise from the repository's inputs of interest).
-/

set_option maxRecDepth 4096

/-- Number value of a JSON numeric literal, kept as an exact decimal:
the mathematical value is `sig * 10 ^ exp`. -/
structure JNum where
  sig : Int
  exp : Int
deriving DecidableEq, Repr

/-- JavaScript values reachable in the modelled code: `undefined`, plus every
JSON value. Objects are ordered field lists with unique keys (as produced by
`JSON.parse`, which keeps the first position and last value of a duplicate key). -/
inductive JsValue where
  | undefined : JsValue
  | null : JsValue
  | bool (b : Bool) : JsValue
  | num (n : JNum) : JsValue
  | str (s : String) : JsValue
  | arr (elems : List JsValue) : JsValue
  | obj (fields : List (String × JsValue)) : JsValue

/-- Errors thrown by the modelled JavaScript: a message, and an optional
`status` field (no error constructed in this repository ever carries one;
the catch clause in `POST` still reads it, via `e.status ?? 500`). -/
structure JsError where
  message : String
  status : Option Nat := none
deriving DecidableEq, Repr

/-- Lookup of a key in an object's field list (first match; keys are unique
in parse-built objects). -/
def jsLookup (fields : List (String × JsValue)) (k : String) : Option JsValue :=
  match fields with
  | [] => none
  | (k1, v) :: rest => if k1 = k then some v else jsLookup rest k

/-- Field insertion as performed by `JSON.parse` on a duplicate key: the
existing position keeps the new value; a fresh key is appended. -/
def jsInsert (fields : List (String × JsValue)) (k : String) (v : JsValue) :
    List (String × JsValue) :=
  match fields with
  | [] => [(k, v)]
  | (k1, v1) :: rest =>
    if k1 = k then (k1, v) :: rest else (k1, v1) :: jsInsert rest k v

/-- Property access `v.name`: throws a TypeError on `null`/`undefined`,
returns the field (or `undefined` when absent) on objects, and `undefined`
on other primitives for the property names this code reads. -/
def getField (v : JsValue) (name : String) : Except JsError JsValue :=
  match v with
  | .undefined =>
    .error { message := "Cannot read properties of undefined (reading " ++ name ++ ")" }
  | .null =>
    .error { message := "Cannot read properties of null (reading " ++ name ++ ")" }
  | .obj fields => .ok ((jsLookup fields name).getD .undefined)
  | _ => .ok .undefined

/-- JavaScript truthiness (`ToBoolean`) on the modelled values: `undefined`,
`null`, `false`, `0` and `""` are falsy; everything else is truthy. -/
def jsTruthy (v : JsValue) : Bool :=
  match v with
  | .undefined => false
  | .null => false
  | .bool b => b
  | .num n => !(n.sig = 0)
  | .str s => !(s = "")
  | .arr _ => true
  | .obj _ => true

/-! JSON parsing (`JSON.parse`), ECMA-404 grammar. -/

/-- JSON insignificant whitespace characters. -/
def isJsonWs (c : Char) : Bool :=
  c = ' ' || c = Char.ofNat 9 || c = Char.ofNat 10 || c = Char.ofNat 13

/-- Drop leading JSON whitespace. -/
def skipWs (cs : List Char) : List Char :=
  match cs with
  | [] => []
  | c :: rest => if isJsonWs c then skipWs rest else c :: rest

/-- Strip an expected prefix from a character list. -/
def stripPrefixList (p cs : List Char) : Option (List Char) :=
  match p, cs with
  | [], rest => some rest
  | p1 :: ps, c :: rest => if c = p1 then stripPrefixList ps rest else none
  | _ :: _, [] => none

/-- Value of a hexadecimal digit character, if it is one. -/
def hexVal (c : Char) : Option Nat :=
  if '0' ≤ c ∧ c ≤ '9' then some (c.toNat - 48)
  else if 'a' ≤ c ∧ c ≤ 'f' then some (c.toNat - 87)
  else if 'A' ≤ c ∧ c ≤ 'F' then some (c.toNat - 55)
  else none

/-- Parse the four hex digits of a `\uXXXX` escape. -/
def parseHex4 (cs : List Char) : Option (Nat × List Char) :=
  match cs with
  | c1 :: c2 :: c3 :: c4 :: rest =>
    match hexVal c1, hexVal c2, hexVal c3, hexVal c4 with
    | some h1, some h2, some h3, some h4 =>
      some (h1 * 4096 + h2 * 256 + h3 * 16 + h4, rest)
    | _, _, _, _ => none
  | _ => none

/-- Parse the body of a JSON string after the opening quote, handling the
escape sequences and rejecting raw control characters; surrogate pairs in
`\u` escapes are combined, and a lone surrogate maps to U+FFFD (the model
works in scalar Unicode). Each step consumes at least one character, so
`fuel := cs.length` at the call site never runs out. -/
def parseStrBody (fuel : Nat) (acc : String) (cs : List Char) :
    Except String (String × List Char) :=
  match fuel with
  | 0 => .error "Unterminated string in JSON"
  | fuel1 + 1 =>
    match cs with
    | [] => .error "Unterminated string in JSON"
    | c :: rest =>
      if c = '"' then .ok (acc, rest)
      else if c = '\\' then
        match rest with
        | [] => .error "Unterminated string in JSON"
        | e :: rest2 =>
          if e = '"' then parseStrBody fuel1 (acc.push '"') rest2
          else if e = '\\' then parseStrBody fuel1 (acc.push '\\') rest2
          else if e = '/' then parseStrBody fuel1 (acc.push '/') rest2
          else if e = 'b' then parseStrBody fuel1 (acc.push (Char.ofNat 8)) rest2
          else if e = 'f' then parseStrBody fuel1 (acc.push (Char.ofNat 12)) rest2
          else if e = 'n' then parseStrBody fuel1 (acc.push (Char.ofNat 10)) rest2
          else if e = 'r' then parseStrBody fuel1 (acc.push (Char.ofNat 13)) rest2
          else if e = 't' then parseStrBody fuel1 (acc.push (Char.ofNat 9)) rest2
          else if e = 'u' then
            match parseHex4 rest2 with
            | none => .error "Bad Unicode escape in JSON"
            | some (u, rest3) =>
              if 0xD800 ≤ u ∧ u ≤ 0xDBFF then
                match stripPrefixList ['\\', 'u'] rest3 with
                | some rest4 =>
                  match parseHex4 rest4 with
                  | some (u2, rest5) =>
                    if 0xDC00 ≤ u2 ∧ u2 ≤ 0xDFFF then
                      parseStrBody fuel1
                        (acc.push (Char.ofNat (0x10000 + (u - 0xD800) * 1024 + (u2 - 0xDC00))))
                        rest5
                    else parseStrBody fuel1 (acc.push (Char.ofNat 0xFFFD)) rest3
                  | none => parseStrBody fuel1 (acc.push (Char.ofNat 0xFFFD)) rest3
                | none => parseStrBody fuel1 (acc.push (Char.ofNat 0xFFFD)) rest3
              else if 0xDC00 ≤ u ∧ u ≤ 0xDFFF then
                parseStrBody fuel1 (acc.push (Char.ofNat 0xFFFD)) rest3
              else parseStrBody fuel1 (acc.push (Char.ofNat u)) rest3
          else .error "Bad escaped character in JSON"
      else if c.toNat < 0x20 then .error "Bad control character in JSON string"
      else parseStrBody fuel1 (acc.push c) rest

/-- Take a maximal run of decimal digits. -/
def takeDigits (cs : List Char) : List Char × List Char :=
  match cs with
  | c :: rest =>
    if c.isDigit then
      let (ds, rest2) := takeDigits rest
      (c :: ds, rest2)
    else ([], cs)
  | [] => ([], [])

/-- Numeric value of a list of decimal digit characters. -/
def digitsToNat (ds : List Char) : Nat :=
  ds.foldl (fun acc c => acc * 10 + (c.toNat - 48)) 0

/-- Parse a JSON number literal (`-? int frac? exp?`, no leading zeros)
into its exact decimal value. -/
def parseNum (cs : List Char) : Except String (JNum × List Char) :=
  let (neg, cs1) :=
    match cs with
    | '-' :: rest => (true, rest)
    | _ => (false, cs)
  match takeDigits cs1 with
  | ([], _) => .error "Unexpected token in JSON"
  | (intDs, cs2) =>
    if intDs.length > 1 ∧ intDs.headD '0' = '0' then .error "Unexpected number in JSON"
    else
      let (fracDs, cs3) :=
        match cs2 with
        | '.' :: rest =>
          match takeDigits rest with
          | ([], _) => ([], cs2)
          | (ds, rest2) => (ds, rest2)
        | _ => ([], cs2)
      if cs3.headD ' ' = '.' then .error "Unterminated fractional number in JSON"
      else
        let expPart : Option (Int × List Char) :=
          match cs3 with
          | e :: rest =>
            if e = 'e' ∨ e = 'E' then
              let (esign, rest2) :=
                match rest with
                | '+' :: r2 => ((1 : Int), r2)
                | '-' :: r2 => ((-1 : Int), r2)
                | _ => ((1 : Int), rest)
              match takeDigits rest2 with
              | ([], _) => none
              | (eds, rest3) => some (esign * (digitsToNat eds : Int), rest3)
            else some (0, cs3)
          | [] => some (0, cs3)
        match expPart with
        | none => .error "Exponent part is missing a number in JSON"
        | some (e, cs4) =>
          let mag : Nat := digitsToNat (intDs ++ fracDs)
          let sign : Int := if neg then -1 else 1
          .ok ({ sig := sign * (mag : Int), exp := e - (fracDs.length : Int) }, cs4)

/-- Open-brace and close-brace characters. -/
def braceO : Char := Char.ofNat 123

/-- Close-brace character. -/
def braceC : Char := Char.ofNat 125

mutual

/-- Parse one JSON value (recursive descent; `fuel` bounds the recursion and
is chosen large enough at the top entry that it never runs out on any input). -/
def parseVal (fuel : Nat) (cs : List Char) : Except String (JsValue × List Char) :=
  match fuel with
  | 0 => .error "JSON nesting exceeds fuel"
  | fuel1 + 1 =>
    match skipWs cs with
    | [] => .error "Unexpected end of JSON input"
    | c :: rest =>
      if c = '"' then
        match parseStrBody rest.length "" rest with
        | .ok (s, rest2) => .ok (.str s, rest2)
        | .error m => .error m
      else if c = '[' then
        match skipWs rest with
        | ']' :: rest2 => .ok (.arr [], rest2)
        | rest2 => parseElems fuel1 [] rest2
      else if c = braceO then
        match skipWs rest with
        | d :: rest2 =>
          if d = braceC then .ok (.obj [], rest2)
          else parseMembers fuel1 [] (d :: rest2)
        | [] => .error "Unexpected end of JSON input"
      else if c = '-' ∨ c.isDigit then
        match parseNum (c :: rest) with
        | .ok (n, rest2) => .ok (.num n, rest2)
        | .error m => .error m
      else if (stripPrefixList ['n', 'u', 'l', 'l'] (c :: rest)).isSome then
        .ok (.null, (stripPrefixList ['n', 'u', 'l', 'l'] (c :: rest)).getD [])
      else if (stripPrefixList ['t', 'r', 'u', 'e'] (c :: rest)).isSome then
        .ok (.bool true, (stripPrefixList ['t', 'r', 'u', 'e'] (c :: rest)).getD [])
      else if (stripPrefixList ['f', 'a', 'l', 's', 'e'] (c :: rest)).isSome then
        .ok (.bool false, (stripPrefixList ['f', 'a', 'l', 's', 'e'] (c :: rest)).getD [])
      else .error "Unexpected token in JSON"

/-- Parse the remaining elements of a non-empty JSON array (the opening
bracket already consumed, not positioned at `]`). -/
def parseElems (fuel : Nat) (acc : List JsValue) (cs : List Char) :
    Except String (JsValue × List Char) :=
  match fuel with
  | 0 => .error "JSON nesting exceeds fuel"
  | fuel1 + 1 =>
    match parseVal fuel1 cs with
    | .error m => .error m
    | .ok (v, rest) =>
      match skipWs rest with
      | ',' :: rest2 => parseElems fuel1 (acc ++ [v]) rest2
      | ']' :: rest2 => .ok (.arr (acc ++ [v]), rest2)
      | _ => .error "Expected comma or closing bracket in JSON array"

/-- Parse the remaining members of a non-empty JSON object (the opening
brace already consumed, not positioned at the closing brace). -/
def parseMembers (fuel : Nat) (acc : List (String × JsValue)) (cs : List Char) :
    Except String (JsValue × List Char) :=
  match fuel with
  | 0 => .error "JSON nesting exceeds fuel"
  | fuel1 + 1 =>
    match skipWs cs with
    | c :: rest =>
      if c = '"' then
        match parseStrBody rest.length "" rest with
        | .error m => .error m
        | .ok (k, rest2) =>
          match skipWs rest2 with
          | ':' :: rest3 =>
            match parseVal fuel1 rest3 with
            | .error m => .error m
            | .ok (v, rest4) =>
              match skipWs rest4 with
              | ',' :: rest5 => parseMembers fuel1 (jsInsert acc k v) rest5
              | d :: rest5 =>
                if d = braceC then .ok (.obj (jsInsert acc k v), rest5)
                else .error "Expected comma or closing brace in JSON object"
              | [] => .error "Unexpected end of JSON input"
          | _ => .error "Expected colon in JSON object"
      else .error "Expected property name in JSON object"
    | [] => .error "Unexpected end of JSON input"

end

/-- Semantics of `JSON.parse`: parse a complete JSON text (surrounding
whitespace allowed, nothing trailing). -/
def jsonParse (s : String) : Except String JsValue :=
  match parseVal (2 * s.length + 2) s.toList with
  | .error m => .error m
  | .ok (v, rest) =>
    match skipWs rest with
    | [] => .ok v
    | _ => .error "Unexpected non-whitespace character after JSON"

/-- Parse as the JavaScript runtime does, packaging a syntax failure as a
thrown error (no `status` field). -/
def jsonParseJs (s : String) : Except JsError JsValue :=
  match jsonParse s with
  | .ok v => .ok v
  | .error m => .error { message := m }

/-! Number-to-string (`Number::toString` base 10) on exact decimals. -/

/-- Lowercase hexadecimal digit character. -/
def hexDigitL (n : Nat) : Char :=
  if n < 10 then Char.ofNat (48 + n) else Char.ofNat (87 + n)

/-- Uppercase hexadecimal digit character. -/
def hexDigitU (n : Nat) : Char :=
  if n < 10 then Char.ofNat (48 + n) else Char.ofNat (55 + n)

/-- Render a nonnegative integer in decimal. -/
def natDecimal (n : Nat) : String := String.mk (Nat.toDigits 10 n)

/-- ECMAScript `Number::toString(10)` for an exact decimal value: with the
significand digits `s` (no trailing zeros, `k` of them) and decimal-point
position `n` (value `= ±0.s * 10 ^ n`), chooses plain, fractional, or
exponential notation exactly as the spec does. -/
def numToString (x : JNum) : String :=
  if x.sig = 0 then "0"
  else
    let digits := Nat.toDigits 10 x.sig.natAbs
    let revDigits := digits.reverse
    let t := (revDigits.takeWhile (fun c => c = '0')).length
    let s := (revDigits.drop t).reverse
    let k : Int := s.length
    let n : Int := x.exp + t + k
    let core :=
      if k ≤ n ∧ n ≤ 21 then
        String.mk s ++ String.mk (List.replicate (n - k).toNat '0')
      else if 0 < n ∧ n ≤ 21 then
        String.mk (s.take n.toNat) ++ "." ++ String.mk (s.drop n.toNat)
      else if -6 < n ∧ n ≤ 0 then
        "0." ++ String.mk (List.replicate (-n).toNat '0') ++ String.mk s
      else
        String.mk (s.take 1) ++
          (if k = 1 then "" else "." ++ String.mk (s.drop 1)) ++
          "e" ++ (if 0 ≤ n - 1 then "+" else "-") ++ natDecimal (n - 1).natAbs
    (if x.sig < 0 then "-" else "") ++ core

/-! JSON serialization (`JSON.stringify(value, null, 2)`). -/

/-- Escape one character per `QuoteJSONString`. -/
def quoteJSONChar (c : Char) : String :=
  if c = '"' then "\\\""
  else if c = '\\' then "\\\\"
  else if c = Char.ofNat 8 then "\\b"
  else if c = Char.ofNat 12 then "\\f"
  else if c = Char.ofNat 10 then "\\n"
  else if c = Char.ofNat 13 then "\\r"
  else if c = Char.ofNat 9 then "\\t"
  else if c.toNat < 0x20 then
    "\\u00" ++ String.singleton (hexDigitL (c.toNat / 16)) ++
      String.singleton (hexDigitL (c.toNat % 16))
  else String.singleton c

/-- Quote a string per `QuoteJSONString` (scalar-Unicode fragment: no lone
surrogates can occur in the model's strings). -/
def quoteJSONString (s : String) : String :=
  "\"" ++ String.join (s.toList.map quoteJSONChar) ++ "\""

/-- Size of a value (number of constructors along the deepest-summed paths);
used as a recursion bound: it strictly dominates the nesting depth. -/
def jsSizeW (v : JsValue) : Nat :=
  match v with
  | .undefined => 1
  | .null => 1
  | .bool _ => 1
  | .num _ => 1
  | .str _ => 1
  | .arr xs => 1 + (xs.attach.map (fun x => jsSizeW x.1)).foldr (fun a b => a + b) 0
  | .obj fs => 1 + (fs.attach.map (fun kv => jsSizeW kv.1.2)).foldr (fun a b => a + b) 0
termination_by sizeOf v
decreasing_by
  all_goals simp_wf
  · have h := List.sizeOf_lt_of_mem x.2
    omega
  · have h := List.sizeOf_lt_of_mem kv.2
    have h2 : sizeOf kv.1.2 < sizeOf kv.1 := by
      obtain ⟨⟨a, b⟩, hm⟩ := kv
      simp only [Prod.mk.sizeOf_spec]
      omega
    omega

/-- Serialization of `JSON.stringify(v, null, 2)` at indentation `ind`:
`none` models the JavaScript result `undefined`. `fuel` only bounds the
recursion; `fuel := sizeOf v` at the entry point always suffices. -/
def serJSON (fuel : Nat) (ind : String) (v : JsValue) : Option String :=
  match fuel, v with
  | _, .undefined => none
  | _, .null => some "null"
  | _, .bool true => some "true"
  | _, .bool false => some "false"
  | _, .num n => some (numToString n)
  | _, .str s => some (quoteJSONString s)
  | 0, .arr _ => none
  | 0, .obj _ => none
  | fuel1 + 1, .arr xs =>
    let ind1 := ind ++ "  "
    let items := xs.map (fun x => (serJSON fuel1 ind1 x).getD "null")
    if items.isEmpty then some "[]"
    else
      some ("[" ++ "\n" ++ ind1 ++ String.intercalate ("," ++ "\n" ++ ind1) items ++
        "\n" ++ ind ++ "]")
  | fuel1 + 1, .obj fs =>
    let ind1 := ind ++ "  "
    let members := fs.filterMap (fun kv =>
      (serJSON fuel1 ind1 kv.2).map (fun sv => quoteJSONString kv.1 ++ ": " ++ sv))
    if members.isEmpty then some "\x7b\x7d"
    else
      some ("\x7b" ++ "\n" ++ ind1 ++ String.intercalate ("," ++ "\n" ++ ind1) members ++
        "\n" ++ ind ++ "\x7d")

/-- Semantics of `JSON.stringify(v, null, 2)` (`undefined` result is `none`). -/
def jsonStringify2 (v : JsValue) : Option String :=
  serJSON (jsSizeW v) "" v

/-! String coercion, UTF-8, and `encodeURIComponent`. -/

/-- Fuelled ECMAScript `ToString` on the modelled values; arrays join their
elements with commas (`Array.prototype.toString`), with `null`/`undefined`
elements as empty strings. -/
def jsToStringFuel (fuel : Nat) (v : JsValue) : String :=
  match fuel, v with
  | _, .undefined => "undefined"
  | _, .null => "null"
  | _, .bool true => "true"
  | _, .bool false => "false"
  | _, .num n => numToString n
  | _, .str s => s
  | 0, .arr _ => ""
  | fuel1 + 1, .arr xs =>
    String.intercalate ","
      (xs.map (fun x =>
        match x with
        | .undefined => ""
        | .null => ""
        | _ => jsToStringFuel fuel1 x))
  | _, .obj _ => "[object Object]"

/-- ECMAScript `ToString` (`fuel := jsSizeW v` always suffices). -/
def jsToString (v : JsValue) : String :=
  jsToStringFuel (jsSizeW v) v

/-- UTF-8 encoding of one Unicode scalar value. -/
def charUtf8 (c : Char) : List Nat :=
  let n := c.toNat
  if n < 0x80 then [n]
  else if n < 0x800 then [0xC0 + n / 64, 0x80 + n % 64]
  else if n < 0x10000 then [0xE0 + n / 4096, 0x80 + n / 64 % 64, 0x80 + n % 64]
  else [0xF0 + n / 262144, 0x80 + n / 4096 % 64, 0x80 + n / 64 % 64, 0x80 + n % 64]

/-- Semantics of `TextEncoder.encode` on a string: its UTF-8 byte sequence. -/
def utf8Bytes (s : String) : List Nat :=
  (s.toList.map charUtf8).foldr (fun a b => a ++ b) []

/-- Characters `encodeURIComponent` leaves unescaped besides ASCII
alphanumerics. -/
def uriUnreservedExtra : List Char :=
  ['-', '_', '.', '!', '~', '*', Char.ofNat 39, '(', ')']

/-- Whether `encodeURIComponent` leaves the character unescaped. -/
def isUriUnreserved (c : Char) : Bool :=
  c.isAlpha || c.isDigit || uriUnreservedExtra.contains c

/-- Percent-encode one byte with uppercase hex digits. -/
def pctByte (b : Nat) : String :=
  "%" ++ String.singleton (hexDigitU (b / 16)) ++ String.singleton (hexDigitU (b % 16))

/-- Semantics of `encodeURIComponent` on a string (the builtin first applies
`ToString` to its argument; call sites pass `jsToString` of the value). -/
def encodeURIComponent (s : String) : String :=
  String.join (s.toList.map (fun c =>
    if isUriUnreserved c then String.singleton c
    else String.join ((charUtf8 c).map pctByte)))

/-! Chat route handler (`src/unnamed/part_000`). The external HTTP world is
an oracle `http : String → HttpResponse` mapping a request URL to the
response the service would give. -/

/-- An HTTP response from the external toolkit service: a status code and a
raw body text. -/
structure HttpResponse where
  status : Nat
  body : String

/-- Fetch-API `Response.ok`: status in the inclusive range 200–299. -/
def HttpResponse.ok (r : HttpResponse) : Bool :=
  decide (200 ≤ r.status ∧ r.status ≤ 299)

/-- URL built by `fetchGitHubTools`:
`http://127.0.0.1:8000/github-toolkit?user_input=${encodeURIComponent(userInput)}`
(the builtin coerces its argument to a string first). -/
def githubToolkitUrl (userInput : JsValue) : String :=
  "http://127.0.0.1:8000/github-toolkit?user_input=" ++
    encodeURIComponent (jsToString userInput)

/-- Model of `fetchGitHubTools`: performs the GET, throws
`new Error("Failed to fetch GitHub Toolkit")` (no status field) on a
non-ok response, otherwise returns `response.json()` (which itself throws
on a malformed body). -/
def fetchGitHubTools (http : String → HttpResponse) (userInput : JsValue) :
    Except JsError JsValue :=
  let response := http (githubToolkitUrl userInput)
  if !response.ok then .error { message := "Failed to fetch GitHub Toolkit" }
  else jsonParseJs response.body

/-- Result of the route handler: either a streaming text response
(`StreamingTextResponse`, status 200, with the list of chunks the stream
emits before closing) or a JSON response with a status code. -/
inductive PostResponse where
  | stream (status : Nat) (chunks : List (List Nat)) : PostResponse
  | json (status : Nat) (body : JsValue) : PostResponse

/-- Body of the `try` block of `POST`: parse the request body, read
`user_input` and `show_intermediate_steps`, call the toolkit, read its
`response` field, then either wrap it as a single-chunk text stream
(falsy flag) or return the intermediate-steps JSON shape (truthy flag). -/
def postTry (rawBody : String) (http : String → HttpResponse) :
    Except JsError PostResponse :=
  match jsonParseJs rawBody with
  | .error e => .error e
  | .ok body =>
    match getField body "user_input" with
    | .error e => .error e
    | .ok userInput =>
      match getField body "show_intermediate_steps" with
      | .error e => .error e
      | .ok returnIntermediateSteps =>
        match fetchGitHubTools http userInput with
        | .error e => .error e
        | .ok toolsResponse =>
          match getField toolsResponse "response" with
          | .error e => .error e
          | .ok responseContent =>
            if !jsTruthy returnIntermediateSteps then
              .ok (.stream 200 [utf8Bytes (jsToString responseContent)])
            else
              match getField responseContent "output" with
              | .error e => .error e
              | .ok out =>
                .ok (.json 200
                  (.obj [("messages",
                    .arr [.obj [("content", out), ("role", .str "assistant")]])]))

/-- Model of the exported `POST` handler: the try body with its catch
clause, which converts any thrown error into
`NextResponse.json({ error: e.message }, { status: e.status ?? 500 })`. -/
def POST (rawBody : String) (http : String → HttpResponse) : PostResponse :=
  match postTry rawBody http with
  | .ok r => r
  | .error e => .json (e.status.getD 500) (.obj [("error", .str e.message)])

/-! Message adapters (`src/unnamed/part_000`). -/

/-- Tool-call descriptor carried by assistant messages (langchain's
`ToolCall`); its internals are never inspected by the converters. -/
structure ToolCall where
  name : String
  args : JsValue
  id : Option String := none

/-- Langchain structured messages used by the adapters: `HumanMessage`,
`AIMessage` (whose constructor initialises `tool_calls` to `[]` when built
from a plain string), `SystemMessage` and role-tagged `ChatMessage`. -/
inductive BaseMessage where
  | human (content : String) : BaseMessage
  | ai (content : String) (tool_calls : List ToolCall) : BaseMessage
  | system (content : String) : BaseMessage
  | chat (content : String) (role : String) : BaseMessage

/-- Langchain `getType()`: note that a `ChatMessage` reports the type tag
`"generic"`, not its role. -/
def BaseMessage.getType (m : BaseMessage) : String :=
  match m with
  | .human _ => "human"
  | .ai _ _ => "ai"
  | .system _ => "system"
  | .chat _ _ => "generic"

/-- Content carried by a structured message. -/
def BaseMessage.content (m : BaseMessage) : String :=
  match m with
  | .human c => c
  | .ai c _ => c
  | .system c => c
  | .chat c _ => c

/-- Reading `.tool_calls` after the `as AIMessage` cast: the list on an
actual `AIMessage`, `undefined` (here `none`) on anything else. -/
def BaseMessage.castToolCalls (m : BaseMessage) : Option (List ToolCall) :=
  match m with
  | .ai _ tc => some tc
  | _ => none

/-- Vercel-shape chat message: a role string, a content string, and an
optional `tool_calls` property (`none` models the key being absent). -/
structure VercelMessage where
  role : String
  content : String
  tool_calls : Option (List ToolCall) := none

/-- Model of `convertVercelMessageToLangChainMessage`. -/
def convertVercelMessageToLangChainMessage (message : VercelMessage) : BaseMessage :=
  if message.role = "user" then .human message.content
  else if message.role = "assistant" then .ai message.content []
  else .chat message.content message.role

/-- Model of `convertLangChainMessageToVercelMessage`. -/
def convertLangChainMessageToVercelMessage (message : BaseMessage) : VercelMessage :=
  if message.getType = "human" then
    { content := message.content, role := "user" }
  else if message.getType = "ai" then
    { content := message.content, role := "assistant",
      tool_calls := message.castToolCalls }
  else { content := message.content, role := message.getType }

/-! Tool response renderer (`src/components/IntermediateStep.tsx`). -/

/-- Data the component's JSX renders: the value placed in the tool-name
`<code>` element, the `Input:` code block text
(`JSON.stringify(toolData.tool_input, null, 2)`, `none` when that call
returns `undefined`), and the `Output:` code block text (the raw string
when `typeof tool_output === "string"`, else its pretty-printed JSON). -/
structure StepRender where
  toolName : JsValue
  inputText : Option String
  outputText : Option String

/-- Body of the component's `try` block: parse the message content, then
build the rendered element (reading `tool_name`, `tool_input` and
`tool_output` off the parsed value, each of which throws when the value is
`null`). -/
def IntermediateStepTry (content : String) : Except JsError StepRender :=
  match jsonParseJs content with
  | .error e => .error e
  | .ok toolData =>
    match getField toolData "tool_name" with
    | .error e => .error e
    | .ok name =>
      match getField toolData "tool_input" with
      | .error e => .error e
      | .ok input =>
        match getField toolData "tool_output" with
        | .error e => .error e
        | .ok output =>
          .ok { toolName := name,
                inputText := jsonStringify2 input,
                outputText :=
                  match output with
                  | .str s => some s
                  | _ => jsonStringify2 output }

/-- Model of the `IntermediateStep` component: the try body with its catch,
which logs the error and returns `null` (here `none`). -/
def IntermediateStep (content : String) : Option StepRender :=
  match IntermediateStepTry content with
  | .ok r => some r
  | .error _ => none

/-! Helper lemmas shared by the claim theorems. -/

/-- ToString of a string value is itself, whatever the fuel. -/
theorem jsToStringFuel_str (f : Nat) (s : String) : jsToStringFuel f (.str s) = s := by
  cases f <;> rfl

/-- ToString of a string value is itself. -/
theorem jsToString_str (s : String) : jsToString (.str s) = s := by
  unfold jsToString; exact jsToStringFuel_str _ _

/-- ToString of `undefined` is the literal text `undefined`, whatever the fuel. -/
theorem jsToStringFuel_undefined (f : Nat) : jsToStringFuel f .undefined = "undefined" := by
  cases f <;> rfl

/-- ToString of `undefined` is the literal text `undefined`. -/
theorem jsToString_undefined : jsToString .undefined = "undefined" := by
  unfold jsToString; exact jsToStringFuel_undefined _

/-- Runtime JSON parse succeeds exactly when the grammar-level parse does. -/
theorem jsonParseJs_ok (s : String) (v : JsValue) (h : jsonParse s = .ok v) :
    jsonParseJs s = .ok v := by
  unfold jsonParseJs; rw [h]

/-- Runtime JSON parse throws a status-less error when the grammar-level
parse fails. -/
theorem jsonParseJs_err (s m : String) (h : jsonParse s = .error m) :
    jsonParseJs s = .error { message := m } := by
  unfold jsonParseJs; rw [h]

/-- When one property access on a value succeeds, every property access on
that value succeeds (only `null` and `undefined` throw). -/
theorem getField_ok_any (v : JsValue) (k k2 : String) (u : JsValue)
    (h : getField v k = .ok u) : ∃ u2, getField v k2 = .ok u2 := by
  cases v <;> simp [getField] at h ⊢

/-! Sanity checks of the embedded JavaScript builtins on concrete inputs
(each mirrors the observable behaviour of the corresponding builtin). -/

example : jsonParse "null" = .ok .null := rfl
example : jsonParse "true" = .ok (.bool true) := rfl
example : jsonParse "\"hi\"" = .ok (.str "hi") := rfl
example : jsonParse "\x7b\"a\":1\x7d" = .ok (.obj [("a", .num ⟨1, 0⟩)]) := rfl
example : jsonParse " [1, \"x\", true] " =
    .ok (.arr [.num ⟨1, 0⟩, .str "x", .bool true]) := rfl
example : jsonParse "x" = .error "Unexpected token in JSON" := rfl
example : jsonParse "" = .error "Unexpected end of JSON input" := rfl
example : jsonParse "\x7b\"a\":1,\"b\":2,\"a\":3\x7d" =
    .ok (.obj [("a", .num ⟨3, 0⟩), ("b", .num ⟨2, 0⟩)]) := rfl
example : jsonParse "-1.5e2" = .ok (.num ⟨-15, 1⟩) := rfl
example : jsonParse "01" = .error "Unexpected number in JSON" := rfl
example : jsonParse "1." = .error "Unterminated fractional number in JSON" := rfl
example : jsonParse "[1,]" = .error "Unexpected token in JSON" := rfl
example : jsonParse "\"a\\nb\\u0041\"" = .ok (.str "a\nbA") := rfl
example : numToString ⟨15, -1⟩ = "1.5" := rfl
example : numToString ⟨100, 0⟩ = "100" := rfl
example : numToString ⟨123, -9⟩ = "1.23e-7" := rfl
example : numToString ⟨1, 21⟩ = "1e+21" := rfl
example : serJSON 5 "" (.obj [("q", .str "x")]) = some "\x7b\n  \"q\": \"x\"\n\x7d" := rfl
example : serJSON 5 "" (.obj [("a", .obj [("b", .num ⟨1, 0⟩)])]) =
    some "\x7b\n  \"a\": \x7b\n    \"b\": 1\n  \x7d\n\x7d" := rfl
example : serJSON 5 "" (.arr [.num ⟨1, 0⟩, .str "x"]) = some "[\n  1,\n  \"x\"\n]" := rfl
example : serJSON 5 "" (.str "a\"b") = some "\"a\\\"b\"" := rfl
example : encodeURIComponent "undefined" = "undefined" := rfl
example : encodeURIComponent "a b/c" = "a%20b%2Fc" := rfl
example : utf8Bytes "hello" = [104, 101, 108, 108, 111] := rfl

/-! Claim theorems. -/

/-- Claim C1: for every request body with a string `user_input` and a falsy
`show_intermediate_steps`, when the external toolkit call succeeds with a
JSON body whose `response` field is a string `s`, `POST` returns a 200
streaming text response whose stream emits exactly one chunk, the UTF-8
encoding of `s`, and then closes. -/
theorem POST_falsy_flag_streams_single_chunk
    (raw : String) (http : String → HttpResponse)
    (body tr flag : JsValue) (u s : String)
    (hbody : jsonParse raw = .ok body)
    (hui : getField body "user_input" = .ok (.str u))
    (hflag : getField body "show_intermediate_steps" = .ok flag)
    (hfalsy : jsTruthy flag = false)
    (hok : (http (githubToolkitUrl (.str u))).ok = true)
    (hext : jsonParse (http (githubToolkitUrl (.str u))).body = .ok tr)
    (hresp : getField tr "response" = .ok (.str s)) :
    POST raw http = .stream 200 [utf8Bytes s] := by
  have h1 : postTry raw http = .ok (.stream 200 [utf8Bytes (jsToString (.str s))]) := by
    unfold postTry fetchGitHubTools
    simp only [jsonParseJs_ok _ _ hbody, hui, hflag, hok, jsonParseJs_ok _ _ hext,
      hresp, hfalsy, Bool.not_true, Bool.not_false, if_true, if_false,
      Bool.false_eq_true, Bool.true_eq_false, ite_true, ite_false, reduceIte]
  unfold POST
  rw [h1, jsToString_str]

/-- Witness for C1: the concrete exchange from the spec (`user_input = "x"`,
external response `\x7b"response":"hello"\x7d`) yields a single-chunk 200
stream carrying the UTF-8 bytes of `"hello"`. -/
theorem POST_falsy_flag_streams_single_chunk_witness :
    POST "\x7b\"user_input\":\"x\"\x7d"
      (fun _ => ⟨200, "\x7b\"response\":\"hello\"\x7d"⟩) =
      .stream 200 [utf8Bytes "hello"] :=
  POST_falsy_flag_streams_single_chunk
    "\x7b\"user_input\":\"x\"\x7d"
    (fun _ => ⟨200, "\x7b\"response\":\"hello\"\x7d"⟩)
    (.obj [("user_input", .str "x")]) (.obj [("response", .str "hello")])
    .undefined "x" "hello" rfl rfl rfl rfl rfl rfl rfl

/-- Claim C2: for every request body with truthy `show_intermediate_steps`,
when the external toolkit call succeeds with a JSON body whose `response`
field is an object whose `output` field is a string `o`, `POST` returns
status 200 with JSON body exactly
`\x7b messages: [\x7b content: o, role: "assistant" \x7d] \x7d`. -/
theorem POST_truthy_flag_messages_json
    (raw : String) (http : String → HttpResponse)
    (body tr rc flag : JsValue) (u o : String)
    (hbody : jsonParse raw = .ok body)
    (hui : getField body "user_input" = .ok (.str u))
    (hflag : getField body "show_intermediate_steps" = .ok flag)
    (htruthy : jsTruthy flag = true)
    (hok : (http (githubToolkitUrl (.str u))).ok = true)
    (hext : jsonParse (http (githubToolkitUrl (.str u))).body = .ok tr)
    (hresp : getField tr "response" = .ok rc)
    (hout : getField rc "output" = .ok (.str o)) :
    POST raw http =
      .json 200 (.obj [("messages",
        .arr [.obj [("content", .str o), ("role", .str "assistant")]])]) := by
  have h1 : postTry raw http = .ok (.json 200 (.obj [("messages",
      .arr [.obj [("content", .str o), ("role", .str "assistant")]])])) := by
    unfold postTry fetchGitHubTools
    simp only [jsonParseJs_ok _ _ hbody, hui, hflag, hok, jsonParseJs_ok _ _ hext,
      hresp, htruthy, hout, Bool.not_true, Bool.not_false, if_true, if_false,
      Bool.false_eq_true, Bool.true_eq_false, ite_true, ite_false, reduceIte]
  unfold POST
  rw [h1]

/-- Witness for C2: the concrete exchange from the spec
(`show_intermediate_steps: true`, external response
`\x7b"response":\x7b"output":"hi"\x7d\x7d`) yields the 200 JSON messages body. -/
theorem POST_truthy_flag_messages_json_witness :
    POST "\x7b\"user_input\":\"x\",\"show_intermediate_steps\":true\x7d"
      (fun _ => ⟨200, "\x7b\"response\":\x7b\"output\":\"hi\"\x7d\x7d"⟩) =
      .json 200 (.obj [("messages",
        .arr [.obj [("content", .str "hi"), ("role", .str "assistant")]])]) :=
  POST_truthy_flag_messages_json
    "\x7b\"user_input\":\"x\",\"show_intermediate_steps\":true\x7d"
    (fun _ => ⟨200, "\x7b\"response\":\x7b\"output\":\"hi\"\x7d\x7d"⟩)
    (.obj [("user_input", .str "x"), ("show_intermediate_steps", .bool true)])
    (.obj [("response", .obj [("output", .str "hi")])]) (.obj [("output", .str "hi")])
    (.bool true) "x" "hi" rfl rfl rfl rfl rfl rfl rfl rfl

/-- Claim C3: for every request that reaches the external call, if the
toolkit returns a non-success HTTP status, `POST` returns the JSON error
body built from the thrown `Error("Failed to fetch GitHub Toolkit")`, and
since that error carries no status field the response status is 500. -/
theorem POST_failed_fetch_returns_500
    (raw : String) (http : String → HttpResponse)
    (body u : JsValue)
    (hbody : jsonParse raw = .ok body)
    (hui : getField body "user_input" = .ok u)
    (hnotok : (http (githubToolkitUrl u)).ok = false) :
    POST raw http =
      .json 500 (.obj [("error", .str "Failed to fetch GitHub Toolkit")]) := by
  obtain ⟨flag, hflag⟩ := getField_ok_any body "user_input" "show_intermediate_steps" u hui
  have h1 : postTry raw http = .error { message := "Failed to fetch GitHub Toolkit" } := by
    unfold postTry fetchGitHubTools
    simp only [jsonParseJs_ok _ _ hbody, hui, hflag, hnotok, Bool.not_true,
      Bool.not_false, if_true, if_false, ite_true, ite_false, reduceIte]
  unfold POST
  rw [h1]
  rfl

/-- Witness for C3: a 404 from the toolkit makes `POST` answer 500 with the
generic error body. -/
theorem POST_failed_fetch_returns_500_witness :
    POST "\x7b\"user_input\":\"x\"\x7d" (fun _ => ⟨404, "not found"⟩) =
      .json 500 (.obj [("error", .str "Failed to fetch GitHub Toolkit")]) :=
  POST_failed_fetch_returns_500
    "\x7b\"user_input\":\"x\"\x7d" (fun _ => ⟨404, "not found"⟩)
    (.obj [("user_input", .str "x")]) (.str "x") rfl rfl rfl

/-- Claim C4: every exception thrown inside the try body (body parsing, the
fetch, or reshaping) is caught and converted into a JSON response with body
`\x7b error: e.message \x7d` and status `e.status` when present, else 500;
`POST` itself is a total function of the request and never propagates an
exception. -/
theorem POST_catches_all_errors
    (raw : String) (http : String → HttpResponse) (e : JsError)
    (h : postTry raw http = .error e) :
    POST raw http = .json (e.status.getD 500) (.obj [("error", .str e.message)]) := by
  unfold POST
  rw [h]

/-- Witness for C4: an empty (unparseable) request body is caught and
surfaced as a 500 JSON error carrying the parse-error message. -/
theorem POST_catches_all_errors_witness :
    POST "" (fun _ => ⟨200, "\x7b\"response\":\"hello\"\x7d"⟩) =
      .json 500 (.obj [("error", .str "Unexpected end of JSON input")]) :=
  POST_catches_all_errors "" (fun _ => ⟨200, "\x7b\"response\":\"hello\"\x7d"⟩)
    { message := "Unexpected end of JSON input" } rfl

/-- Claim C5: for every message content parsing to an object with fields
`tool_name`, `tool_input` and `tool_output`, the component renders the
`tool_name` value, the `tool_input` pretty-printed with 2-space indentation
(`JSON.stringify(v, null, 2)`), and the `tool_output` raw when it is a
string, else pretty-printed. -/
theorem IntermediateStep_renders_tool_record
    (content : String) (fs : List (String × JsValue)) (n i o : JsValue)
    (hparse : jsonParse content = .ok (.obj fs))
    (hn : jsLookup fs "tool_name" = some n)
    (hi : jsLookup fs "tool_input" = some i)
    (ho : jsLookup fs "tool_output" = some o) :
    IntermediateStep content =
      some { toolName := n,
             inputText := jsonStringify2 i,
             outputText :=
               match o with
               | .str s => some s
               | _ => jsonStringify2 o } := by
  unfold IntermediateStep IntermediateStepTry
  simp only [jsonParseJs_ok _ _ hparse, getField, hn, hi, ho, Option.getD]
  cases o <;> rfl

/-- Witness for C5: the concrete content from the spec renders tool name
`"search"`, the pretty-printed input object, and the raw output string
`"result"`. -/
theorem IntermediateStep_renders_tool_record_witness :
    IntermediateStep
      "\x7b\"tool_name\":\"search\",\"tool_input\":\x7b\"q\":\"x\"\x7d,\"tool_output\":\"result\"\x7d" =
      some { toolName := .str "search",
             inputText := jsonStringify2 (.obj [("q", .str "x")]),
             outputText := some "result" } :=
  IntermediateStep_renders_tool_record
    "\x7b\"tool_name\":\"search\",\"tool_input\":\x7b\"q\":\"x\"\x7d,\"tool_output\":\"result\"\x7d"
    [("tool_name", .str "search"), ("tool_input", .obj [("q", .str "x")]),
      ("tool_output", .str "result")] (.str "search") (.obj [("q", .str "x")])
    (.str "result") rfl rfl rfl rfl

/-- Claim C6: for every message content that is not valid JSON, the
component does not throw (it is a total function): it returns `none`,
rendering nothing. -/
theorem IntermediateStep_invalid_json_renders_nothing
    (content m : String) (h : jsonParse content = .error m) :
    IntermediateStep content = none := by
  unfold IntermediateStep IntermediateStepTry
  rw [jsonParseJs_err _ _ h]

/-- Witness for C6: the content `"not json"` renders nothing. -/
theorem IntermediateStep_invalid_json_renders_nothing_witness :
    IntermediateStep "not json" = none :=
  IntermediateStep_invalid_json_renders_nothing "not json"
    "Unexpected token in JSON" rfl

/-- Claim C7: converting the Vercel-shape message
`\x7b role: "user", content: "hi" \x7d` to a structured message and back
yields the same message, with no `tool_calls` field attached. -/
theorem vercel_user_message_roundtrip :
    convertLangChainMessageToVercelMessage
      (convertVercelMessageToLangChainMessage { role := "user", content := "hi" }) =
      { role := "user", content := "hi", tool_calls := none } := rfl

/-- Claim C8: `convertLangChainMessageToVercelMessage` maps a human message
to role `user`, an ai message to role `assistant` with its `tool_calls` list
attached, and every other message to the role given verbatim by its type
tag (`getType`), always carrying the content over unchanged. -/
theorem convertLangChain_role_mapping :
    (∀ c, convertLangChainMessageToVercelMessage (.human c) =
      { role := "user", content := c, tool_calls := none }) ∧
    (∀ c tc, convertLangChainMessageToVercelMessage (.ai c tc) =
      { role := "assistant", content := c, tool_calls := some tc }) ∧
    (∀ c, convertLangChainMessageToVercelMessage (.system c) =
      { role := (BaseMessage.system c).getType, content := c, tool_calls := none }) ∧
    (∀ c r, convertLangChainMessageToVercelMessage (.chat c r) =
      { role := (BaseMessage.chat c r).getType, content := c, tool_calls := none }) :=
  ⟨fun _ => rfl, fun _ _ => rfl, fun _ => rfl, fun _ _ => rfl⟩

/-- Claim C9: the content `"null"` is valid JSON (parsing to the null
value), yet the component still renders nothing: the `tool_name` access on
the parsed null throws inside the try block and the catch swallows it, so
valid JSON is necessary but not sufficient for non-empty output. -/
theorem IntermediateStep_json_null_renders_nothing :
    jsonParse "null" = .ok .null ∧
    IntermediateStepTry "null" =
      .error { message := "Cannot read properties of null (reading tool_name)" } ∧
    IntermediateStep "null" = none :=
  ⟨rfl, rfl, rfl⟩

/-- Claim C10: a request body missing `user_input` is not rejected: `POST`
proceeds, the fetched URL carries the literal text `undefined` as the
url-encoded `user_input` query value, and when that call succeeds (here
with `show_intermediate_steps` also absent) the handler still returns a
200 (streaming) response. -/
theorem POST_missing_user_input_uses_undefined
    (raw : String) (http : String → HttpResponse)
    (fs : List (String × JsValue)) (tr rc : JsValue)
    (hbody : jsonParse raw = .ok (.obj fs))
    (hmiss : jsLookup fs "user_input" = none)
    (hmiss2 : jsLookup fs "show_intermediate_steps" = none)
    (hok : (http (githubToolkitUrl .undefined)).ok = true)
    (hext : jsonParse (http (githubToolkitUrl .undefined)).body = .ok tr)
    (hresp : getField tr "response" = .ok rc) :
    githubToolkitUrl .undefined =
      "http://127.0.0.1:8000/github-toolkit?user_input=undefined" ∧
    POST raw http = .stream 200 [utf8Bytes (jsToString rc)] := by
  constructor
  · unfold githubToolkitUrl
    rw [jsToString_undefined]
    rfl
  · have hui : getField (.obj fs) "user_input" = .ok .undefined := by
      simp [getField, hmiss]
    have hflag : getField (.obj fs) "show_intermediate_steps" = .ok .undefined := by
      simp [getField, hmiss2]
    have h1 : postTry raw http = .ok (.stream 200 [utf8Bytes (jsToString rc)]) := by
      unfold postTry fetchGitHubTools
      simp only [jsonParseJs_ok _ _ hbody, hui, hflag, hok, jsonParseJs_ok _ _ hext,
        hresp, jsTruthy, Bool.not_true, Bool.not_false, Bool.false_eq_true,
        Bool.true_eq_false, if_true, if_false, ite_true, ite_false, reduceIte]
    unfold POST
    rw [h1]

/-- Witness for C10: the empty-object request body together with a
successful toolkit call gives a 200 stream, through the URL whose query
value is the literal text `undefined`. -/
theorem POST_missing_user_input_uses_undefined_witness :
    githubToolkitUrl .undefined =
      "http://127.0.0.1:8000/github-toolkit?user_input=undefined" ∧
    POST "\x7b\x7d" (fun _ => ⟨200, "\x7b\"response\":\"hello\"\x7d"⟩) =
      .stream 200 [utf8Bytes (jsToString (.str "hello"))] :=
  POST_missing_user_input_uses_undefined
    "\x7b\x7d" (fun _ => ⟨200, "\x7b\"response\":\"hello\"\x7d"⟩)
    [] (.obj [("response", .str "hello")]) (.str "hello")
    rfl rfl rfl rfl rfl rfl
